import Mathlib

/-!
Shallow embedding of `src/bot/google.py` (confession_manager).

The module defines a generic `Sheet` client over the Google Sheets v4 API and a
domain subclass `ConfessionsSheet`.  The remote service is modelled by making
each method a pure function from its inputs (and, where the method reads the
remote service or the wall clock, from an explicit parameter standing for the
value the environment returned) to the list of API calls the method issues.
Python dictionaries are modelled as association lists, Python exceptions by an
`Except` result, and Python `int` by `Int`.
-/

/-! ## Constants (google.py, CONSTANTS section) -/

def CONFESSION_SHEET_ID : String := "444158458"

def ARCHIVE_SHEET_ID : String := "1557599273"

def CONFESSION_READY_LENGTH : Nat := 3

def ROWS_DIMENSION : String := "ROWS"

def READY_CONFESSIONS_A1_FORMAT : String := "Form Responses 1!A:C"

def ARCHIVE_RANGE : String := "Archive!A:C"

def PUBLISHED_TIME_FORMAT : String := "%m/%j/%Y %H:%M:%S"

def RAW_INPUT_OPTION : String := "RAW"

def PARSE_DATA_INPUT_OPTION : String := "USER_ENTERED"

def DATE_PUBLISHED_DICT_KEY : String := "Date Published"

def CONFESSION_DICT_KEY : String := "Confession"

def LINE_NUMBER_DICT_KEY : String := "Line Number"

def DATE_RECEIVED_INDEX : Nat := 0

def CONFESSION_INDEX : Nat := 1

/-! ## Python value, dictionary and exception model -/

/-- A Python value as it occurs in this module: the confession dictionaries hold
strings (sheet cells) and ints (line numbers). -/
inductive PyVal where
  | str (s : String)
  | int (n : Int)
deriving DecidableEq

/-- A Python dict with string keys, as built by `get_ready_confessions`. -/
abbrev ConfessionDict := List (String × PyVal)

/-- The Python exceptions this module can raise. -/
inductive PyError where
  | keyError (key : String)
  | attributeError (name : String)
deriving DecidableEq

/-- Python dict subscription `d[key]`: the value, or `KeyError`. -/
def dictGet (d : ConfessionDict) (key : String) : Except PyError PyVal :=
  match d.lookup key with
  | some v => Except.ok v
  | none => Except.error (PyError.keyError key)

/-- `datetime.datetime.now()` value: the fields of the wall-clock time that the
format directives of `PUBLISHED_TIME_FORMAT` read. `dayOfYear` is the value
rendered by `%j` (day of the year, 1–366). -/
structure PyDateTime where
  year : Nat
  month : Nat
  dayOfYear : Nat
  hour : Nat
  minute : Nat
  second : Nat
deriving DecidableEq

/-- Zero-pad the decimal rendering of `n` to width `w`, as strftime does. -/
def pad (w : Nat) (n : Nat) : String :=
  let s := toString n
  String.mk (List.replicate (w - s.length) '0') ++ s

/-- `datetime.strftime` restricted to the directives appearing in
`PUBLISHED_TIME_FORMAT`: `%m` month (2 digits), `%j` day of year (3 digits),
`%Y` year (4 digits), `%H`/`%M`/`%S` hour/minute/second (2 digits); every other
character is copied verbatim. -/
def strftimeAux (t : PyDateTime) : List Char → String
  | [] => ""
  | '%' :: c :: rest =>
    (match c with
     | 'm' => pad 2 t.month
     | 'j' => pad 3 t.dayOfYear
     | 'Y' => pad 4 t.year
     | 'H' => pad 2 t.hour
     | 'M' => pad 2 t.minute
     | 'S' => pad 2 t.second
     | other => String.mk ['%', other]) ++ strftimeAux t rest
  | c :: rest => String.mk [c] ++ strftimeAux t rest

def strftime (t : PyDateTime) (fmt : String) : String :=
  strftimeAux t fmt.data

/-! ## The API calls a `Sheet` issues -/

/-- One `deleteDimension` request of a `batchUpdate` body
(`Sheet.delete_rows`, google.py lines 142–151). -/
structure DeleteDimensionRequest where
  sheetId : String
  dimension : String
  startIndex : Int
  endIndex : Int
deriving DecidableEq

/-- An API call sent by this module: `spreadsheets().values().append` with its
body values, or `spreadsheets().batchUpdate` with its list of delete requests.
(`spreadsheets().values().get` is modelled as a pure read, see `Sheet.get_data`.) -/
inductive ApiCall where
  | valuesAppend (spreadsheetId : String) (range : String)
      (valueInputOption : String) (values : List PyVal)
  | batchUpdate (spreadsheetId : String) (requests : List DeleteDimensionRequest)
deriving DecidableEq

/-! ## class Sheet -/

/-- `Sheet.get_data(self, data_range)` (google.py lines 90–100): issues a values
`get` for `data_range` and returns `result.get("values", [])`. The remote result
is the explicit parameter `response`: `none` models a result dict without a
`"values"` entry (range with no data), `some v` a result carrying values `v`. -/
def Sheet.get_data (data_range : String)
    (response : Option (List (List String))) : List (List String) :=
  let _ := data_range
  response.getD []

/-- `Sheet.add_row(self, data, data_range, raw_input_option=True)` (google.py
lines 102–123): chooses the value-input option and issues one values-append call
whose body is `{"values": data}`. `self_id` is `self.id`. -/
def Sheet.add_row (self_id : String) (data : List PyVal) (data_range : String)
    (raw_input_option : Bool) : ApiCall :=
  let input_option := if raw_input_option then RAW_INPUT_OPTION else PARSE_DATA_INPUT_OPTION
  ApiCall.valuesAppend self_id data_range input_option data

/-- `sorted(list(set(rows)), reverse=True)` (google.py line 134): the distinct
elements of `rows` in descending order. `set` forgets order and multiplicity and
`sorted(..., reverse=True)` then determines the list uniquely, so it is modelled
as first-occurrence deduplication followed by a descending sort. -/
def pySortedSetDesc (rows : List Int) : List Int :=
  List.insertionSort (· ≥ ·) rows.dedup

/-- The `deleteDimension` request built for one row number (google.py lines
142–151): the worksheet id, dimension `"ROWS"`, and the half-open index range
`[row - 1, row)`. -/
def deleteRowRequest (sheet_id : String) (row : Int) : DeleteDimensionRequest :=
  { sheetId := sheet_id
    dimension := ROWS_DIMENSION
    startIndex := row - 1
    endIndex := row }

/-- The `"requests"` list of the `batchUpdate` body built by
`Sheet.delete_rows` (google.py lines 133–153): one request per element of the
sorted, deduplicated row list, in that order. -/
def Sheet.delete_rows_requests (sheet_id : String) (rows : List Int) :
    List DeleteDimensionRequest :=
  (pySortedSetDesc rows).map (deleteRowRequest sheet_id)

/-- `Sheet.delete_rows(self, sheet_id, rows)` (google.py lines 125–156): builds
the request body and unconditionally issues exactly one `batchUpdate` call — the
body construction and the `execute()` are not guarded on `rows` being nonempty. -/
def Sheet.delete_rows (self_id : String) (sheet_id : String) (rows : List Int) :
    List ApiCall :=
  [ApiCall.batchUpdate self_id (Sheet.delete_rows_requests sheet_id rows)]

/-! ## class ConfessionsSheet(Sheet) -/

/-- The dict literal built for one ready confession (google.py lines 173–177):
cell `DATE_RECEIVED_INDEX` under key `DATE_PUBLISHED_DICT_KEY`, cell
`CONFESSION_INDEX` under key `CONFESSION_DICT_KEY`, and `number + 1` under key
`LINE_NUMBER_DICT_KEY`. Cell indexing is total here because every call site is
guarded by `length = CONFESSION_READY_LENGTH`. -/
def confessionRecord (number : Nat) (confession : List String) : ConfessionDict :=
  [(DATE_PUBLISHED_DICT_KEY, PyVal.str (confession.getD DATE_RECEIVED_INDEX "")),
   (CONFESSION_DICT_KEY, PyVal.str (confession.getD CONFESSION_INDEX "")),
   (LINE_NUMBER_DICT_KEY, PyVal.int (Int.ofNat (number + 1)))]

/-- `ConfessionsSheet.get_ready_confessions(self)` (google.py lines 163–180):
fetches the confession range, then for each `(number, confession)` of
`enumerate(raw_confessions)` appends a record dict when the row has exactly
`CONFESSION_READY_LENGTH` cells, skipping every other row. `response` is the
remote result of the `get_data` fetch. -/
def ConfessionsSheet.get_ready_confessions
    (response : Option (List (List String))) : List ConfessionDict :=
  let raw_confessions := Sheet.get_data READY_CONFESSIONS_A1_FORMAT response
  raw_confessions.enum.filterMap (fun p =>
    if p.2.length = CONFESSION_READY_LENGTH then
      some (confessionRecord p.1 p.2)
    else
      none)

/-- `ConfessionsSheet._add_confession_to_archive(self, confession)` (google.py
lines 193–204): reads the wall clock (`current_time`, the value
`datetime.datetime.now()` returned), builds the row
`[confession[DATE_PUBLISHED_DICT_KEY], current_time.strftime(PUBLISHED_TIME_FORMAT),
confession[CONFESSION_DICT_KEY]]` (each subscription may raise `KeyError`), and
issues the append via `add_row(list(row), ARCHIVE_RANGE)` with the default
`raw_input_option=True`. -/
def ConfessionsSheet.add_confession_to_archive (self_id : String)
    (current_time : PyDateTime) (confession : ConfessionDict) :
    Except PyError ApiCall := do
  let date ← dictGet confession DATE_PUBLISHED_DICT_KEY
  let published := PyVal.str (strftime current_time PUBLISHED_TIME_FORMAT)
  let text ← dictGet confession CONFESSION_DICT_KEY
  pure (Sheet.add_row self_id [date, published, text] ARCHIVE_RANGE true)

/-- `ConfessionsSheet._delete_confessions_from_pool(self, confessions)`
(google.py lines 206–213): evaluates the comprehension
`[confession[LINE_NUMBER_DICT_KEY] for confession in confessions]` and then
executes `self.delete_row(CONFESSION_SHEET_ID, line_numbers)`. Neither
`ConfessionsSheet` nor its base class `Sheet` defines an attribute named
`delete_row` — the defined method is `delete_rows` (google.py line 125) — so the
attribute access raises `AttributeError` unconditionally and no API call is
issued by this method. -/
def ConfessionsSheet.delete_confessions_from_pool (self_id : String)
    (confessions : List ConfessionDict) : Except PyError (List ApiCall) := do
  let _ := self_id
  let _line_numbers ← confessions.mapM
    (fun confession => dictGet confession LINE_NUMBER_DICT_KEY)
  throw (PyError.attributeError "delete_row")

/-- The append loop of `archive_confessions` (google.py lines 188–189):
`_add_confession_to_archive` is called once per confession in list order, each
call reading the wall clock afresh (`clock i` is the `datetime.datetime.now()`
value of the `i`-th iteration). The result is the list of append calls issued
together with the first exception, if any; on an exception the loop stops,
keeping the calls already issued. -/
def archiveAppends (self_id : String) (clock : Nat → PyDateTime) :
    Nat → List ConfessionDict → List ApiCall × Option PyError
  | _, [] => ([], none)
  | i, confession :: rest =>
    match ConfessionsSheet.add_confession_to_archive self_id (clock i) confession with
    | Except.error e => ([], some e)
    | Except.ok call =>
      match archiveAppends self_id clock (i + 1) rest with
      | (calls, err) => (call :: calls, err)

/-- `ConfessionsSheet.archive_confessions(self, confessions)` (google.py lines
182–191): runs the append loop over all confessions, then calls
`_delete_confessions_from_pool(confessions)`. Returns the full list of API
calls issued, paired with the exception that escaped, if any. -/
def ConfessionsSheet.archive_confessions (self_id : String)
    (clock : Nat → PyDateTime) (confessions : List ConfessionDict) :
    List ApiCall × Option PyError :=
  match archiveAppends self_id clock 0 confessions with
  | (calls, some e) => (calls, some e)
  | (calls, none) =>
    match ConfessionsSheet.delete_confessions_from_pool self_id confessions with
    | Except.error e => (calls, some e)
    | Except.ok more => (calls ++ more, none)

/-! ## Helper lemmas -/

theorem filterMap_ite {α β : Type} (f : α → β) (p : α → Prop) [DecidablePred p]
    (l : List α) :
    (l.filterMap fun a => if p a then some (f a) else none) =
      (l.filter fun a => decide (p a)).map f := by
  induction l with
  | nil => rfl
  | cons a l ih => by_cases h : p a <;> simp [h, ih]

theorem get_ready_eq (response : Option (List (List String))) :
    ConfessionsSheet.get_ready_confessions response =
      ((Sheet.get_data READY_CONFESSIONS_A1_FORMAT response).enum.filter
          (fun p => decide (p.2.length = CONFESSION_READY_LENGTH))).map
        (fun p => confessionRecord p.1 p.2) := by
  unfold ConfessionsSheet.get_ready_confessions
  exact filterMap_ite _ _ _

theorem confessionRecord_lookup_date (number : Nat) (confession : List String) :
    (confessionRecord number confession).lookup DATE_PUBLISHED_DICT_KEY =
      some (PyVal.str (confession.getD DATE_RECEIVED_INDEX "")) := rfl

theorem confessionRecord_lookup_text (number : Nat) (confession : List String) :
    (confessionRecord number confession).lookup CONFESSION_DICT_KEY =
      some (PyVal.str (confession.getD CONFESSION_INDEX "")) := rfl

theorem confessionRecord_lookup_line (number : Nat) (confession : List String) :
    (confessionRecord number confession).lookup LINE_NUMBER_DICT_KEY =
      some (PyVal.int (Int.ofNat (number + 1))) := rfl

theorem confessionRecord_key_list (number : Nat) (confession : List String) :
    (confessionRecord number confession).map Prod.fst =
      [DATE_PUBLISHED_DICT_KEY, CONFESSION_DICT_KEY, LINE_NUMBER_DICT_KEY] := rfl

theorem add_confession_record (sid : String) (now : PyDateTime) (number : Nat)
    (confession : List String) :
    ConfessionsSheet.add_confession_to_archive sid now (confessionRecord number confession) =
      Except.ok (ApiCall.valuesAppend sid ARCHIVE_RANGE RAW_INPUT_OPTION
        [PyVal.str (confession.getD DATE_RECEIVED_INDEX ""),
         PyVal.str (strftime now PUBLISHED_TIME_FORMAT),
         PyVal.str (confession.getD CONFESSION_INDEX "")]) := rfl

theorem strftime_published (t : PyDateTime) :
    strftime t PUBLISHED_TIME_FORMAT =
      pad 2 t.month ++ "/" ++ pad 3 t.dayOfYear ++ "/" ++ pad 4 t.year ++ " " ++
      pad 2 t.hour ++ ":" ++ pad 2 t.minute ++ ":" ++ pad 2 t.second := by
  show strftimeAux t PUBLISHED_TIME_FORMAT.data = _
  have hd : PUBLISHED_TIME_FORMAT.data =
      ['%', 'm', '/', '%', 'j', '/', '%', 'Y', ' ', '%', 'H', ':', '%', 'M', ':', '%', 'S'] :=
    rfl
  rw [hd]
  simp only [strftimeAux]
  simp [String.append_assoc, String.append_empty]

theorem pySortedSetDesc_sorted (rows : List Int) :
    List.Sorted (· > ·) (pySortedSetDesc rows) := by
  have hs : List.Sorted (· ≥ ·) (pySortedSetDesc rows) :=
    List.sorted_insertionSort _ _
  have hn : (pySortedSetDesc rows).Nodup :=
    (List.perm_insertionSort _ _).nodup_iff.mpr rows.nodup_dedup
  exact (hs.and hn).imp fun h => lt_of_le_of_ne h.1 (Ne.symm h.2)

theorem pySortedSetDesc_mem (rows : List Int) (x : Int) :
    x ∈ pySortedSetDesc rows ↔ x ∈ rows := by
  rw [pySortedSetDesc, (List.perm_insertionSort _ _).mem_iff, List.mem_dedup]

theorem pySortedSetDesc_nodup (rows : List Int) : (pySortedSetDesc rows).Nodup :=
  (List.perm_insertionSort _ _).nodup_iff.mpr rows.nodup_dedup

/-! ## Claim theorems -/

/-- C2: for every fetched list of raw rows, `get_ready_confessions` returns
exactly the rows whose length equals 3 (`CONFESSION_READY_LENGTH`), in their
original order, each as the record built from that row with line number equal to
its 0-based fetch position plus 1; rows of any other length are silently
omitted (the function is total, no error is reported). In particular, for
fetched rows of lengths [1,2,3,2,3] it returns exactly 2 records, with line
numbers 3 and 5. -/
theorem get_ready_confessions_filter_shape (rows : List (List String)) :
    CONFESSION_READY_LENGTH = 3 ∧
    ConfessionsSheet.get_ready_confessions (some rows) =
      ((rows.enum.filter fun p => decide (p.2.length = CONFESSION_READY_LENGTH)).map
        fun p => confessionRecord p.1 p.2) ∧
    ((ConfessionsSheet.get_ready_confessions (some rows)).map
        fun d => d.lookup LINE_NUMBER_DICT_KEY) =
      ((rows.enum.filter fun p => decide (p.2.length = CONFESSION_READY_LENGTH)).map
        fun p => some (PyVal.int (Int.ofNat (p.1 + 1)))) ∧
    (ConfessionsSheet.get_ready_confessions
        (some [["a"], ["a", "b"], ["a", "b", "c"], ["a", "b"], ["x", "y", "z"]])).map
        (fun d => d.lookup LINE_NUMBER_DICT_KEY) =
      [some (PyVal.int 3), some (PyVal.int 5)] := by
  have h := get_ready_eq (some rows)
  refine ⟨rfl, h, ?_, by decide⟩
  rw [h, List.map_map]
  simp [Function.comp_def, confessionRecord_lookup_line, Sheet.get_data]

/-- C3: for every list of row numbers passed to `delete_rows`, the constructed
deletion batch targets the distinct row numbers sorted in strictly descending
order, with exactly one deletion request per distinct row number; in particular
input [5,2,2,8] yields requests for rows [8,5,2] in that order. -/
theorem delete_rows_descending_dedup (sheet_id : String) (rows : List Int) :
    (∃ t : List Int,
        Sheet.delete_rows_requests sheet_id rows = t.map (deleteRowRequest sheet_id) ∧
        List.Sorted (· > ·) t ∧ t.Nodup ∧ ∀ x : Int, x ∈ t ↔ x ∈ rows) ∧
    Sheet.delete_rows_requests sheet_id [5, 2, 2, 8] =
      [deleteRowRequest sheet_id 8, deleteRowRequest sheet_id 5,
       deleteRowRequest sheet_id 2] := by
  constructor
  · exact ⟨pySortedSetDesc rows, rfl, pySortedSetDesc_sorted rows,
      pySortedSetDesc_nodup rows, pySortedSetDesc_mem rows⟩
  · have h : pySortedSetDesc [5, 2, 2, 8] = [8, 5, 2] := by decide
    unfold Sheet.delete_rows_requests
    rw [h]
    rfl

/-- C5: archiving a confession record with date_received `D` and text `T`
issues exactly one append of the 3-cell row `[D, ts, T]` to the archive range,
where `ts` is the current wall-clock time formatted as
month/day-of-year/year hour:minute:second; the row is the same for every value
of the record's line number. -/
theorem archive_entry_shape (self_id : String) (now : PyDateTime)
    (date_received text : String) (line_number : Int) :
    ConfessionsSheet.add_confession_to_archive self_id now
        [(DATE_PUBLISHED_DICT_KEY, PyVal.str date_received),
         (CONFESSION_DICT_KEY, PyVal.str text),
         (LINE_NUMBER_DICT_KEY, PyVal.int line_number)] =
      Except.ok (ApiCall.valuesAppend self_id ARCHIVE_RANGE RAW_INPUT_OPTION
        [PyVal.str date_received, PyVal.str (strftime now PUBLISHED_TIME_FORMAT),
         PyVal.str text]) ∧
    strftime now PUBLISHED_TIME_FORMAT =
      pad 2 now.month ++ "/" ++ pad 3 now.dayOfYear ++ "/" ++ pad 4 now.year ++ " " ++
      pad 2 now.hour ++ ":" ++ pad 2 now.minute ++ ":" ++ pad 2 now.second :=
  ⟨rfl, strftime_published now⟩

/-- C8: when the remote read returns a result with no values present, `get_data`
returns the empty list rather than failing, for every range string. -/
theorem get_data_empty_result (data_range : String) :
    Sheet.get_data data_range none = [] := rfl

/-- C10: `delete_rows` called with an empty list of row numbers still issues
exactly one batch-update call, whose request body contains an empty list of
deletion requests. -/
theorem delete_rows_empty_still_calls (self_id sheet_id : String) :
    Sheet.delete_rows self_id sheet_id [] = [ApiCall.batchUpdate self_id []] ∧
    (Sheet.delete_rows self_id sheet_id []).length = 1 :=
  ⟨rfl, rfl⟩

/-- C1: contrary to the claim, `archive_confessions` never issues a deletion
call: after the per-record appends complete (in input order), the call
`self.delete_row(...)` in `_delete_confessions_from_pool` raises
`AttributeError` because the defined method is `delete_rows`. Evaluated here on
two well-formed records: both appends are issued in order, then the error
escapes and no `batchUpdate` call appears. -/
theorem archive_confessions_deletion_unreachable :
    ConfessionsSheet.archive_confessions "sid" (fun _ => ⟨2023, 1, 1, 10, 0, 0⟩)
        [confessionRecord 0 ["d1", "c1", "x"], confessionRecord 1 ["d2", "c2", "y"]] =
      ([ApiCall.valuesAppend "sid" ARCHIVE_RANGE RAW_INPUT_OPTION
          [PyVal.str "d1", PyVal.str "01/001/2023 10:00:00", PyVal.str "c1"],
        ApiCall.valuesAppend "sid" ARCHIVE_RANGE RAW_INPUT_OPTION
          [PyVal.str "d2", PyVal.str "01/001/2023 10:00:00", PyVal.str "c2"]],
       some (PyError.attributeError "delete_row")) := by
  decide

/-- C6: `get_ready_confessions` on an empty fetched range (empty values, or a
result with no values) returns the empty list, as claimed; but contrary to the
claim, `archive_confessions []` does not complete without error: it performs
zero appends and then raises `AttributeError` from the unconditional
`self.delete_row(...)` call, instead of a no-op or skipped deletion. -/
theorem empty_inputs_behaviour :
    ConfessionsSheet.get_ready_confessions (some []) = [] ∧
    ConfessionsSheet.get_ready_confessions none = [] ∧
    ConfessionsSheet.archive_confessions "sid" (fun _ => ⟨2023, 1, 1, 10, 0, 0⟩) [] =
      ([], some (PyError.attributeError "delete_row")) := by
  decide

/-- C4: every length-3 raw row at 0-based position `i` of the fetched range
yields a confession record whose date value is cell 0 of the row, whose text
value is cell 1, and whose line number is `i + 1`; the record has exactly the
three listed entries, so cell 2 (the ready marker) is dropped. -/
theorem get_ready_field_mapping (rows : List (List String)) (i : Nat)
    (h : i < rows.length) (h3 : (rows.getD i []).length = CONFESSION_READY_LENGTH) :
    ∃ d ∈ ConfessionsSheet.get_ready_confessions (some rows),
      d = confessionRecord i (rows.getD i []) ∧
      d.lookup DATE_PUBLISHED_DICT_KEY =
        some (PyVal.str ((rows.getD i []).getD DATE_RECEIVED_INDEX "")) ∧
      d.lookup CONFESSION_DICT_KEY =
        some (PyVal.str ((rows.getD i []).getD CONFESSION_INDEX "")) ∧
      d.lookup LINE_NUMBER_DICT_KEY = some (PyVal.int (Int.ofNat (i + 1))) ∧
      d.length = 3 := by
  refine ⟨confessionRecord i (rows.getD i []), ?_, rfl,
    confessionRecord_lookup_date _ _, confessionRecord_lookup_text _ _,
    confessionRecord_lookup_line _ _, rfl⟩
  rw [get_ready_eq]
  apply List.mem_map.mpr
  refine ⟨(i, rows.getD i []), List.mem_filter.mpr ⟨?_, by simpa using h3⟩, rfl⟩
  rw [List.mk_mem_enum_iff_getElem?]
  show rows[i]? = some (rows.getD i [])
  rw [List.getD_eq_getElem rows [] h]
  exact List.getElem?_eq_getElem h

/-- C4 witness: the spec's concrete instance — the single fetched row
`["2023-01-01 10:00:00", "hello world", "x"]` at position 0 yields the record
with date `"2023-01-01 10:00:00"`, text `"hello world"` and line number 1. -/
theorem get_ready_field_mapping_witness :
    (0 < ([["2023-01-01 10:00:00", "hello world", "x"]] : List (List String)).length ∧
     (([["2023-01-01 10:00:00", "hello world", "x"]] : List (List String)).getD 0 []).length =
       CONFESSION_READY_LENGTH) ∧
    ∃ d ∈ ConfessionsSheet.get_ready_confessions
        (some [["2023-01-01 10:00:00", "hello world", "x"]]),
      d = confessionRecord 0 (([["2023-01-01 10:00:00", "hello world", "x"]] :
          List (List String)).getD 0 []) ∧
      d.lookup DATE_PUBLISHED_DICT_KEY =
        some (PyVal.str ((([["2023-01-01 10:00:00", "hello world", "x"]] :
          List (List String)).getD 0 []).getD DATE_RECEIVED_INDEX "")) ∧
      d.lookup CONFESSION_DICT_KEY =
        some (PyVal.str ((([["2023-01-01 10:00:00", "hello world", "x"]] :
          List (List String)).getD 0 []).getD CONFESSION_INDEX "")) ∧
      d.lookup LINE_NUMBER_DICT_KEY = some (PyVal.int (Int.ofNat (0 + 1))) ∧
      d.length = 3 :=
  ⟨⟨by decide, by decide⟩,
   get_ready_field_mapping [["2023-01-01 10:00:00", "hello world", "x"]] 0
     (by decide) (by decide)⟩

/-- C7: every request constructed by `delete_rows` is a delete-dimension
operation carrying the given worksheet id, dimension `"ROWS"`, and the
half-open index range `[n - 1, n)` for some input row number `n`, so each
request spans exactly one row. -/
theorem delete_request_fields (sheet_id : String) (rows : List Int)
    (r : DeleteDimensionRequest) (hr : r ∈ Sheet.delete_rows_requests sheet_id rows) :
    r.sheetId = sheet_id ∧ r.dimension = ROWS_DIMENSION ∧ ROWS_DIMENSION = "ROWS" ∧
    ∃ n : Int, n ∈ rows ∧ r.startIndex = n - 1 ∧ r.endIndex = n ∧
      r.endIndex = r.startIndex + 1 := by
  obtain ⟨n, hn, rfl⟩ := List.mem_map.mp hr
  exact ⟨rfl, rfl, rfl, n, (pySortedSetDesc_mem rows n).mp hn, rfl, rfl,
    (Int.sub_add_cancel n 1).symm⟩

/-- C7 witness: for input rows `[2]` the single constructed request carries the
worksheet id, dimension `"ROWS"`, start index 1 and end index 2. -/
theorem delete_request_fields_witness :
    ((⟨"sid", "ROWS", 1, 2⟩ : DeleteDimensionRequest) ∈
      Sheet.delete_rows_requests "sid" [2]) ∧
    ((⟨"sid", "ROWS", 1, 2⟩ : DeleteDimensionRequest).sheetId = "sid" ∧
     (⟨"sid", "ROWS", 1, 2⟩ : DeleteDimensionRequest).dimension = ROWS_DIMENSION ∧
     ROWS_DIMENSION = "ROWS" ∧
     ∃ n : Int, n ∈ ([2] : List Int) ∧
       (⟨"sid", "ROWS", 1, 2⟩ : DeleteDimensionRequest).startIndex = n - 1 ∧
       (⟨"sid", "ROWS", 1, 2⟩ : DeleteDimensionRequest).endIndex = n ∧
       (⟨"sid", "ROWS", 1, 2⟩ : DeleteDimensionRequest).endIndex =
         (⟨"sid", "ROWS", 1, 2⟩ : DeleteDimensionRequest).startIndex + 1) :=
  ⟨by decide, delete_request_fields "sid" [2] ⟨"sid", "ROWS", 1, 2⟩ (by decide)⟩

/-- C9: every record returned by `get_ready_confessions` is a dictionary whose
keys are exactly `"Date Published"`, `"Confession"` and `"Line Number"` (no
date-received key exists); the value stored under `"Date Published"` is cell 0
of the source row (the received date), and the archive step reads the record
back under these same keys, successfully producing its append call. -/
theorem record_key_names (response : Option (List (List String)))
    (d : ConfessionDict) (hd : d ∈ ConfessionsSheet.get_ready_confessions response) :
    d.map Prod.fst = [DATE_PUBLISHED_DICT_KEY, CONFESSION_DICT_KEY, LINE_NUMBER_DICT_KEY] ∧
    DATE_PUBLISHED_DICT_KEY = "Date Published" ∧
    CONFESSION_DICT_KEY = "Confession" ∧
    LINE_NUMBER_DICT_KEY = "Line Number" ∧
    d.lookup "Date Received" = none ∧
    ∃ i row, (Sheet.get_data READY_CONFESSIONS_A1_FORMAT response)[i]? = some row ∧
      d = confessionRecord i row ∧
      d.lookup DATE_PUBLISHED_DICT_KEY =
        some (PyVal.str (row.getD DATE_RECEIVED_INDEX "")) ∧
      d.lookup LINE_NUMBER_DICT_KEY = some (PyVal.int (Int.ofNat (i + 1))) ∧
      ∀ sid now, ConfessionsSheet.add_confession_to_archive sid now d =
        Except.ok (ApiCall.valuesAppend sid ARCHIVE_RANGE RAW_INPUT_OPTION
          [PyVal.str (row.getD DATE_RECEIVED_INDEX ""),
           PyVal.str (strftime now PUBLISHED_TIME_FORMAT),
           PyVal.str (row.getD CONFESSION_INDEX "")]) := by
  rw [get_ready_eq] at hd
  obtain ⟨p, hp, hpe⟩ := List.mem_map.mp hd
  obtain ⟨i, row⟩ := p
  have hrow : (Sheet.get_data READY_CONFESSIONS_A1_FORMAT response)[i]? = some row :=
    List.mk_mem_enum_iff_getElem?.mp (List.mem_filter.mp hp).1
  subst hpe
  exact ⟨rfl, rfl, rfl, rfl, rfl, i, row, hrow, rfl,
    confessionRecord_lookup_date _ _, confessionRecord_lookup_line _ _,
    fun sid now => add_confession_record sid now i row⟩

/-- C9 witness: the record fetched from the single ready row
`["d", "c", "x"]` carries exactly the three dictionary keys and round-trips
through the archive append. -/
theorem record_key_names_witness :
    confessionRecord 0 ["d", "c", "x"] ∈
      ConfessionsSheet.get_ready_confessions (some [["d", "c", "x"]]) ∧
    ((confessionRecord 0 ["d", "c", "x"]).map Prod.fst =
        [DATE_PUBLISHED_DICT_KEY, CONFESSION_DICT_KEY, LINE_NUMBER_DICT_KEY] ∧
     DATE_PUBLISHED_DICT_KEY = "Date Published" ∧
     CONFESSION_DICT_KEY = "Confession" ∧
     LINE_NUMBER_DICT_KEY = "Line Number" ∧
     (confessionRecord 0 ["d", "c", "x"]).lookup "Date Received" = none ∧
     ∃ i row,
       (Sheet.get_data READY_CONFESSIONS_A1_FORMAT (some [["d", "c", "x"]]))[i]? =
         some row ∧
       confessionRecord 0 ["d", "c", "x"] = confessionRecord i row ∧
       (confessionRecord 0 ["d", "c", "x"]).lookup DATE_PUBLISHED_DICT_KEY =
         some (PyVal.str (row.getD DATE_RECEIVED_INDEX "")) ∧
       (confessionRecord 0 ["d", "c", "x"]).lookup LINE_NUMBER_DICT_KEY =
         some (PyVal.int (Int.ofNat (i + 1))) ∧
       ∀ sid now,
         ConfessionsSheet.add_confession_to_archive sid now
             (confessionRecord 0 ["d", "c", "x"]) =
           Except.ok (ApiCall.valuesAppend sid ARCHIVE_RANGE RAW_INPUT_OPTION
             [PyVal.str (row.getD DATE_RECEIVED_INDEX ""),
              PyVal.str (strftime now PUBLISHED_TIME_FORMAT),
              PyVal.str (row.getD CONFESSION_INDEX "")])) :=
  ⟨by decide,
   record_key_names (some [["d", "c", "x"]]) (confessionRecord 0 ["d", "c", "x"])
     (by decide)⟩
